import Mathlib

/-!
Verification of the e-commerce dashboard's data pipeline
(`dashboard/dashboard.py`).

The dashboard loads one CSV into a pandas DataFrame of Order Line rows and
derives four aggregate tables (monthly trend, category ranking, customer RFM,
delivery performance) plus scalar overview metrics.  We embed the DataFrame as
a `List OrderLine` and each pandas pipeline as a Lean function over it.

Modelling conventions:
* A pandas `Timestamp` is abstracted to its calendar-month bucket
  (`pd.Grouper(freq='M')` groups by it) and its absolute day number
  (`Timedelta.days` of a difference of two timestamps is the difference of
  their day numbers at this granularity).
* pandas floats are modelled by `Rat`; a float division whose denominator is
  zero yields a non-finite float (NaN/inf), modelled as `none`.  Division of
  plain Python ints by zero (line 118 on the empty, object-dtype table)
  instead raises `ZeroDivisionError`, modelled as `Except.error`.
* `Series.nunique` is the number of distinct values, `List.dedup`'s length.
* `groupby` group keys are enumerated in sorted order (pandas `sort=True`
  default): the distinct keys sorted ascending.
-/

/-- A pandas timestamp, abstracted to the calendar-month bucket it falls in
and its absolute day number. -/
structure Timestamp where
  month : Int
  day : Int
deriving DecidableEq, Repr

/-- One row of `main_data.csv` after `load_data`'s datetime conversion: an
Order Line (one row per item/payment split of an order).  The
`order_approved_at` and `order_delivered_carrier_date` columns are parsed by
`load_data` but never read by any aggregator or metric, so they are omitted.
`order_delivered_customer_date` is nullable (undelivered orders). -/
structure OrderLine where
  order_id : String
  customer_id : String
  product_category_name_english : String
  price : Rat
  payment_type : String
  payment_value : Rat
  review_score : Option Nat
  order_purchase_timestamp : Timestamp
  order_delivered_customer_date : Option Timestamp
  order_estimated_delivery_date : Timestamp
  customer_state : String
deriving DecidableEq, Repr

/-- The loaded table. -/
abbrev DataFrame := List OrderLine

/-- pandas `Series.nunique`: the number of distinct values. -/
def nunique (l : List String) : Nat := l.dedup.length

/-- Group keys of a pandas `groupby` over a string column: the distinct
values in ascending order (`sort=True`, the default). -/
def groupKeys (l : List String) : List String :=
  List.insertionSort (fun a b => a ≤ b) l.dedup

/-- Maximum of a list of integers (`Series.max`); `0` as the (unreachable in
use) default for an empty series. -/
def listMaxD : List Int → Int
  | [] => 0
  | x :: xs => xs.foldl max x

/-- One row of `monthly_orders_df` produced by `prepare_monthly_data`:
month bucket, distinct order count, summed price.  The `month_name` column is
a string rendering of `order_date` and is omitted. -/
structure MonthlyRow where
  order_date : Int
  order_count : Nat
  revenue : Rat
deriving DecidableEq, Repr

/-- The continuous month range `pd.Grouper(key='order_purchase_timestamp',
freq='M')` bins over: every calendar month from the earliest to the latest
purchase month, including months with no rows. -/
def monthRange (df : DataFrame) : List Int :=
  match df.map (fun l => l.order_purchase_timestamp.month) with
  | [] => []
  | m :: ms =>
    let lo := ms.foldl min m
    let hi := ms.foldl max m
    (List.range (hi - lo + 1).toNat).map (fun i => lo + i)

/-- Embeds `prepare_monthly_data` (dashboard.py lines 52-60): group Order
Lines by calendar month of the purchase timestamp; per month bucket report
the distinct `order_id` count (`nunique`) and the summed `price`. -/
def prepare_monthly_data (df : DataFrame) : List MonthlyRow :=
  (monthRange df).map (fun m =>
    let rows := df.filter (fun l => l.order_purchase_timestamp.month = m)
    { order_date := m
      order_count := nunique (rows.map (fun l => l.order_id))
      revenue := (rows.map (fun l => l.price)).sum })

/-- C1: every month bucket of the Monthly Trend Aggregator reports as
`order_count` the number of distinct order identifiers whose purchase
timestamp falls in that calendar month (never a raw row count). -/
theorem monthly_order_count_is_distinct (df : DataFrame) (r : MonthlyRow)
    (hr : r ∈ prepare_monthly_data df) :
    r.order_count =
      ((df.filter (fun l => l.order_purchase_timestamp.month = r.order_date)).map
        (fun l => l.order_id)).dedup.length := by
  rcases List.mem_map.mp hr with ⟨m, _, rfl⟩
  rfl

/-- A sample Order Line used to build small concrete tables. -/
def sampleLine : OrderLine :=
  { order_id := "O1", customer_id := "C1", product_category_name_english := "toys"
    price := 10, payment_type := "credit_card", payment_value := 11
    review_score := some 5
    order_purchase_timestamp := { month := 0, day := 0 }
    order_delivered_customer_date := some { month := 0, day := 5 }
    order_estimated_delivery_date := { month := 0, day := 7 }
    customer_state := "SP" }

/-- A table where order O1 has two line rows and O2 one, all purchased in the
same month: 3 rows, 2 distinct orders. -/
def multiLineDf : DataFrame :=
  [sampleLine,
   { sampleLine with price := 5 },
   { sampleLine with order_id := "O2", price := 20 }]

/-- Witness for C1 at a concrete table where an order has multiple line rows:
the reported month count is 2 (distinct orders), not 3 (rows). -/
theorem monthly_order_count_is_distinct_witness :
    ({ order_date := 0, order_count := 2, revenue := 35 } : MonthlyRow) ∈
        prepare_monthly_data multiLineDf ∧
      (2 : Nat) =
        ((multiLineDf.filter
            (fun l => l.order_purchase_timestamp.month = (0 : Int))).map
          (fun l => l.order_id)).dedup.length ∧
      multiLineDf.length = 3 := by
  have hn : nunique ["O1", "O1", "O2"] = 2 := by decide
  have hmem : ({ order_date := 0, order_count := 2, revenue := 35 } : MonthlyRow) ∈
      prepare_monthly_data multiLineDf := by
    norm_num [prepare_monthly_data, monthRange, multiLineDf, sampleLine,
      List.range, List.range.loop, hn]
  exact ⟨hmem,
    monthly_order_count_is_distinct multiLineDf
      { order_date := 0, order_count := 2, revenue := 35 } hmem,
    by decide⟩

/-! ### Category Aggregator (`prepare_category_data`, dashboard.py lines 64-77) -/

/-- Comparison used by `sort_values(ascending=True)` on a (category, summed
price) pair: order by the summed price, ascending. -/
def priceLe (a b : String × Rat) : Prop := a.2 ≤ b.2

/-- Comparison used by `sort_values(ascending=False)` on a (category, summed
price) pair: order by the summed price, descending. -/
def priceGe (a b : String × Rat) : Prop := b.2 ≤ a.2

instance : DecidableRel priceLe := fun a b => inferInstanceAs (Decidable (a.2 ≤ b.2))

instance : DecidableRel priceGe := fun a b => inferInstanceAs (Decidable (b.2 ≤ a.2))

instance : IsTotal (String × Rat) priceLe := ⟨fun a b => le_total a.2 b.2⟩

instance : IsTrans (String × Rat) priceLe := ⟨fun _ _ _ h₁ h₂ => le_trans h₁ h₂⟩

instance : IsTotal (String × Rat) priceGe := ⟨fun a b => le_total b.2 a.2⟩

instance : IsTrans (String × Rat) priceGe := ⟨fun _ _ _ h₁ h₂ => le_trans h₂ h₁⟩

/-- The distinct product categories, in groupby key order. -/
def categoryKeys (df : DataFrame) : List String :=
  groupKeys (df.map (fun l => l.product_category_name_english))

/-- The per-category summed price, `df.groupby("product_category_name_english")
["price"].sum()`, as a list of (category, sum) pairs in groupby key order. -/
def catSums (df : DataFrame) : List (String × Rat) :=
  (categoryKeys df).map (fun c =>
    (c, ((df.filter (fun l => l.product_category_name_english = c)).map
      (fun l => l.price)).sum))

/-- Embeds `top_categories`: per-category summed price sorted descending,
first 10 rows (`sort_values(ascending=False).head(10)`). -/
def top_categories (df : DataFrame) : List (String × Rat) :=
  (List.insertionSort priceGe (catSums df)).take 10

/-- Embeds `bottom_categories`: per-category summed price sorted ascending,
first 10 rows (`sort_values(ascending=True).head(10)`). -/
def bottom_categories (df : DataFrame) : List (String × Rat) :=
  (List.insertionSort priceLe (catSums df)).take 10

/-- Smallest element of a list of rationals (`Series.min`), with an
(unreachable in use: groups are nonempty) default of `0`. -/
def ratMinD : List Rat → Rat
  | [] => 0
  | x :: xs => xs.foldl min x

/-- Largest element of a list of rationals (`Series.max`), with an
(unreachable in use: groups are nonempty) default of `0`. -/
def ratMaxD : List Rat → Rat
  | [] => 0
  | x :: xs => xs.foldl max x

/-- One row of the `category_stats` table: distinct order count, row count,
min/mean/max/sum of price for one category. -/
structure CategoryStatsRow where
  product_category_name_english : String
  order_count : Nat
  item_count : Nat
  min_price : Rat
  avg_price : Rat
  max_price : Rat
  total_sales : Rat
deriving DecidableEq, Repr

/-- The `category_stats` aggregation body for one category: the group's
distinct `order_id` count and its price statistics (`count`, `min`, `mean`,
`max`, `sum`).  Groups are nonempty, so the empty-list defaults of
`ratMinD`/`ratMaxD` and the division in the mean are never exercised. -/
def mkCategoryStats (df : DataFrame) (c : String) : CategoryStatsRow :=
  let rows := df.filter (fun l => l.product_category_name_english = c)
  let prices := rows.map (fun l => l.price)
  { product_category_name_english := c
    order_count := nunique (rows.map (fun l => l.order_id))
    item_count := prices.length
    min_price := ratMinD prices
    avg_price := prices.sum / (prices.length : Rat)
    max_price := ratMaxD prices
    total_sales := prices.sum }

/-- Comparison used by `sort_values(by="total_sales", ascending=False)`. -/
def statsGe (a b : CategoryStatsRow) : Prop := b.total_sales ≤ a.total_sales

instance : DecidableRel statsGe :=
  fun a b => inferInstanceAs (Decidable (b.total_sales ≤ a.total_sales))

/-- Embeds the `category_stats` table: one row per category, sorted
descending by total sales. -/
def category_stats (df : DataFrame) : List CategoryStatsRow :=
  List.insertionSort statsGe ((categoryKeys df).map (mkCategoryStats df))

/-- Embeds `prepare_category_data` (dashboard.py lines 64-77): the triple
(top categories, bottom categories, full per-category statistics table). -/
def prepare_category_data (df : DataFrame) :
    List (String × Rat) × List (String × Rat) × List CategoryStatsRow :=
  (top_categories df, bottom_categories df, category_stats df)

/-- C4: every category's `total_sales` in the full-stats table is the sum of
`price` over all Order Lines of that category; the top and bottom category
views are the first 10 rows of descending and ascending rankings of the same
per-category sums, and those two full rankings carry the same sums in exactly
reversed order. -/
theorem category_totals_and_rankings (df : DataFrame) :
    (∀ row ∈ (prepare_category_data df).2.2,
      row.total_sales =
        ((df.filter (fun l => l.product_category_name_english =
            row.product_category_name_english)).map (fun l => l.price)).sum) ∧
    ((prepare_category_data df).1 =
        (List.insertionSort priceGe (catSums df)).take 10 ∧
      (prepare_category_data df).2.1 =
        (List.insertionSort priceLe (catSums df)).take 10) ∧
    (List.insertionSort priceGe (catSums df)).map Prod.snd =
      ((List.insertionSort priceLe (catSums df)).map Prod.snd).reverse := by
  refine ⟨?_, ⟨rfl, rfl⟩, ?_⟩
  · intro row hrow
    have hrow2 : row ∈ (categoryKeys df).map (mkCategoryStats df) :=
      (List.mem_insertionSort statsGe).mp hrow
    rcases List.mem_map.mp hrow2 with ⟨c, _, rfl⟩
    rfl
  · have hp1 : List.Perm ((List.insertionSort priceGe (catSums df)).map Prod.snd)
        ((catSums df).map Prod.snd) :=
      (List.perm_insertionSort priceGe (catSums df)).map Prod.snd
    have hp2 : List.Perm ((List.insertionSort priceLe (catSums df)).map Prod.snd)
        ((catSums df).map Prod.snd) :=
      (List.perm_insertionSort priceLe (catSums df)).map Prod.snd
    have hp3 : List.Perm
        (((List.insertionSort priceLe (catSums df)).map Prod.snd).reverse)
        ((List.insertionSort priceLe (catSums df)).map Prod.snd) :=
      List.reverse_perm _
    have hperm := hp1.trans (hp2.symm.trans hp3.symm)
    have hA : ((List.insertionSort priceGe (catSums df)).map Prod.snd).Pairwise
        (fun a b : Rat => b ≤ a) :=
      List.Pairwise.map Prod.snd (fun _ _ h => h)
        (List.sorted_insertionSort priceGe (catSums df))
    have hB : (((List.insertionSort priceLe (catSums df)).map Prod.snd).reverse).Pairwise
        (fun a b : Rat => b ≤ a) := by
      rw [List.pairwise_reverse]
      exact List.Pairwise.map Prod.snd (fun _ _ h => h)
        (List.sorted_insertionSort priceLe (catSums df))
    haveI : IsAntisymm Rat (fun a b : Rat => b ≤ a) :=
      ⟨fun a b h₁ h₂ => le_antisymm h₂ h₁⟩
    exact List.eq_of_perm_of_sorted hperm hA hB

/-- An Order Line for order O2 in category "auto" with price 50. -/
def autoLine : OrderLine :=
  { sampleLine with order_id := "O2", product_category_name_english := "auto"
                    price := 50 }

/-- An Order Line for order O3 in category "toys" with price 5. -/
def toysLine : OrderLine := { sampleLine with order_id := "O3", price := 5 }

/-- A table with two categories: "toys" (orders O1, O3, prices 10 and 5) and
"auto" (order O2, price 50). -/
def catDf : DataFrame := [sampleLine, autoLine, toysLine]

/-- Witness for C4 at a concrete table: the "toys" stats row carries
`total_sales = 15 = 10 + 5`, and the top/bottom rankings are reverses. -/
theorem category_totals_and_rankings_witness :
    ({ product_category_name_english := "toys", order_count := 2, item_count := 2
       min_price := 5, avg_price := 15 / 2, max_price := 10, total_sales := 15 } :
        CategoryStatsRow) ∈ (prepare_category_data catDf).2.2 ∧
      (15 : Rat) =
        ((catDf.filter (fun l => l.product_category_name_english = "toys")).map
          (fun l => l.price)).sum ∧
      top_categories catDf = [("auto", 50), ("toys", 15)] ∧
      bottom_categories catDf = [("toys", 15), ("auto", 50)] := by
  have hkeys : categoryKeys catDf = ["auto", "toys"] := by
    simp [categoryKeys, groupKeys, catDf, sampleLine, autoLine, toysLine,
      List.insertionSort, List.orderedInsert, List.dedup_cons_of_mem,
      List.dedup_cons_of_not_mem]
    decide
  have hfa : catDf.filter (fun l => l.product_category_name_english = "auto") =
      [autoLine] := by
    simp [catDf, sampleLine, autoLine, toysLine, List.filter_cons]
  have hft : catDf.filter (fun l => l.product_category_name_english = "toys") =
      [sampleLine, toysLine] := by
    simp [catDf, sampleLine, autoLine, toysLine, List.filter_cons]
  have hma : mkCategoryStats catDf "auto" =
      { product_category_name_english := "auto", order_count := 1, item_count := 1
        min_price := 50, avg_price := 50, max_price := 50, total_sales := 50 } := by
    rw [mkCategoryStats, hfa]
    norm_num [autoLine, sampleLine, nunique, ratMinD, ratMaxD]
  have hmt : mkCategoryStats catDf "toys" =
      { product_category_name_english := "toys", order_count := 2, item_count := 2
        min_price := 5, avg_price := 15 / 2, max_price := 10, total_sales := 15 } := by
    rw [mkCategoryStats, hft]
    have hn : nunique ["O1", "O3"] = 2 := by decide
    norm_num [toysLine, sampleLine, hn, ratMinD, ratMaxD, min_def, max_def]
  have hstats : category_stats catDf =
      [{ product_category_name_english := "auto", order_count := 1, item_count := 1
         min_price := 50, avg_price := 50, max_price := 50, total_sales := 50 },
       { product_category_name_english := "toys", order_count := 2, item_count := 2
         min_price := 5, avg_price := 15 / 2, max_price := 10, total_sales := 15 }] := by
    rw [category_stats, hkeys]
    rw [List.map_cons, List.map_cons, List.map_nil, hma, hmt]
    norm_num [List.insertionSort, List.orderedInsert, statsGe]
  have hsums : catSums catDf = [("auto", 50), ("toys", 15)] := by
    rw [catSums, hkeys]
    rw [List.map_cons, List.map_cons, List.map_nil, hfa, hft]
    norm_num [autoLine, toysLine, sampleLine]
  have hmem : ({ product_category_name_english := "toys", order_count := 2
                 item_count := 2, min_price := 5, avg_price := 15 / 2
                 max_price := 10, total_sales := 15 } : CategoryStatsRow) ∈
      (prepare_category_data catDf).2.2 := by
    show _ ∈ category_stats catDf
    rw [hstats]
    simp
  refine ⟨hmem,
    (category_totals_and_rankings catDf).1 _ hmem, ?_, ?_⟩
  · show (List.insertionSort priceGe (catSums catDf)).take 10 = _
    rw [hsums]
    norm_num [List.insertionSort, List.orderedInsert, priceGe]
  · show (List.insertionSort priceLe (catSums catDf)).take 10 = _
    rw [hsums]
    norm_num [List.insertionSort, List.orderedInsert, priceLe]

/-! ### Customer RFM Aggregator (`prepare_rfm_data`, dashboard.py lines 81-95) -/

/-- One row of `rfm_df` after the `last_purchase_date` column is dropped:
customer, distinct order count, summed price, days since last purchase. -/
structure RfmRow where
  customer_id : String
  frequency : Nat
  monetary : Rat
  recency : Int
deriving DecidableEq, Repr

/-- The distinct customer identifiers, in groupby key order. -/
def customerKeys (df : DataFrame) : List String :=
  groupKeys (df.map (fun l => l.customer_id))

/-- A customer's last purchase day, `groupby("customer_id").agg({
"order_purchase_timestamp": "max"})` for that customer. -/
def lastPurchaseDay (df : DataFrame) (c : String) : Int :=
  listMaxD ((df.filter (fun l => l.customer_id = c)).map
    (fun l => l.order_purchase_timestamp.day))

/-- The dataset-wide maximum purchase day:
`df["order_purchase_timestamp"].max()`, computed once over the full table. -/
def recent_date (df : DataFrame) : Int :=
  listMaxD (df.map (fun l => l.order_purchase_timestamp.day))

/-- Embeds `prepare_rfm_data` (dashboard.py lines 81-95): per customer, the
distinct order count (frequency), summed price (monetary), and recency
`(recent_date - last_purchase_date).days` against the one global maximum. -/
def prepare_rfm_data (df : DataFrame) : List RfmRow :=
  (customerKeys df).map (fun c =>
    let rows := df.filter (fun l => l.customer_id = c)
    { customer_id := c
      frequency := nunique (rows.map (fun l => l.order_id))
      monetary := (rows.map (fun l => l.price)).sum
      recency := recent_date df - lastPurchaseDay df c })

theorem le_foldl_max (l : List Int) (a : Int) : a ≤ l.foldl max a := by
  induction l generalizing a with
  | nil => exact le_refl a
  | cons x xs ih => exact le_trans (le_max_left a x) (ih (max a x))

theorem mem_le_foldl_max (l : List Int) : ∀ (a x : Int), x ∈ l → x ≤ l.foldl max a := by
  induction l with
  | nil => intro a x hx; cases hx
  | cons y ys ih =>
    intro a x hx
    rcases List.mem_cons.mp hx with rfl | h
    · exact le_trans (le_max_right a x) (le_foldl_max ys (max a x))
    · exact ih (max a y) x h

theorem le_listMaxD (l : List Int) (x : Int) (hx : x ∈ l) : x ≤ listMaxD l := by
  cases l with
  | nil => cases hx
  | cons y ys =>
    rcases List.mem_cons.mp hx with rfl | h
    · exact le_foldl_max ys x
    · exact mem_le_foldl_max ys y x h

theorem foldl_max_or_mem (l : List Int) : ∀ (a : Int),
    l.foldl max a = a ∨ l.foldl max a ∈ l := by
  induction l with
  | nil => intro a; exact Or.inl rfl
  | cons x xs ih =>
    intro a
    rcases ih (max a x) with h | h
    · rcases max_choice a x with h2 | h2
      · exact Or.inl (by rw [List.foldl_cons, h, h2])
      · exact Or.inr (by rw [List.foldl_cons, h, h2]; exact List.mem_cons_self x xs)
    · exact Or.inr (List.mem_cons_of_mem x h)

theorem listMaxD_mem (l : List Int) (hl : l ≠ []) : listMaxD l ∈ l := by
  cases l with
  | nil => exact absurd rfl hl
  | cons x xs =>
    show xs.foldl max x ∈ x :: xs
    rcases foldl_max_or_mem xs x with h | h
    · rw [h]; exact List.mem_cons_self x xs
    · exact List.mem_cons_of_mem x h

/-- C5: every RFM row's recency is the one dataset-wide maximum purchase day
minus that customer's last purchase day; it is non-negative, and it is zero
for every customer whose last purchase coincides with the global maximum. -/
theorem rfm_recency_nonneg (df : DataFrame) (r : RfmRow)
    (hr : r ∈ prepare_rfm_data df) :
    r.recency = recent_date df - lastPurchaseDay df r.customer_id ∧
      0 ≤ r.recency ∧
      (lastPurchaseDay df r.customer_id = recent_date df → r.recency = 0) := by
  rcases List.mem_map.mp hr with ⟨c, hc, rfl⟩
  refine ⟨rfl, ?_, fun h => ?_⟩
  · show 0 ≤ recent_date df - lastPurchaseDay df c
    have hc2 : c ∈ (df.map (fun l => l.customer_id)).dedup :=
      (List.mem_insertionSort (fun a b => a ≤ b)).mp hc
    rcases List.mem_map.mp (List.mem_dedup.mp hc2) with ⟨l₀, hl₀, hl₀c⟩
    have hl₀f : l₀ ∈ df.filter (fun l => l.customer_id = c) :=
      List.mem_filter.mpr ⟨hl₀, decide_eq_true hl₀c⟩
    have hne : (df.filter (fun l => l.customer_id = c)).map
        (fun l => l.order_purchase_timestamp.day) ≠ [] := by
      intro hnil
      rw [List.map_eq_nil_iff] at hnil
      rw [hnil] at hl₀f
      cases hl₀f
    have hmax := listMaxD_mem _ hne
    rcases List.mem_map.mp hmax with ⟨l₁, hl₁, hl₁d⟩
    have hl₁df : l₁ ∈ df := (List.mem_filter.mp hl₁).1
    have hle : lastPurchaseDay df c ≤ recent_date df := by
      rw [lastPurchaseDay, ← hl₁d]
      exact le_listMaxD _ _ (List.mem_map.mpr ⟨l₁, hl₁df, rfl⟩)
    omega
  · show recent_date df - lastPurchaseDay df c = 0
    rw [h]
    omega

/-- A table with two customers: C1 orders on days 0 and 10 (orders O1, O2),
C2 orders on day 3 (order O3).  The global maximum purchase day is 10. -/
def rfmDf : DataFrame :=
  [sampleLine,
   { sampleLine with order_id := "O2"
                     order_purchase_timestamp := { month := 0, day := 10 } },
   { sampleLine with order_id := "O3", customer_id := "C2"
                     order_purchase_timestamp := { month := 0, day := 3 } }]

/-- Witness for C5 at a concrete table: customer C1's last purchase is the
global maximum, so their recency is 0; frequency counts 2 distinct orders. -/
theorem rfm_recency_nonneg_witness :
    ({ customer_id := "C1", frequency := 2, monetary := 20, recency := 0 } :
        RfmRow) ∈ prepare_rfm_data rfmDf ∧
      (0 : Int) ≤ 0 ∧ (0 : Int) = 0 := by
  have hkeys : customerKeys rfmDf = ["C1", "C2"] := by
    simp [customerKeys, groupKeys, rfmDf, sampleLine, List.insertionSort,
      List.orderedInsert, List.dedup_cons_of_mem, List.dedup_cons_of_not_mem]
    decide
  have hn : nunique ["O1", "O2"] = 2 := by decide
  have hn3 : nunique ["O3"] = 1 := by decide
  have hm1 : listMaxD [0, 10] = 10 := by decide
  have hm2 : listMaxD [0, 10, 3] = 10 := by decide
  have hm3 : listMaxD [3] = 3 := by decide
  have hmem : ({ customer_id := "C1", frequency := 2, monetary := 20, recency := 0 } :
      RfmRow) ∈ prepare_rfm_data rfmDf := by
    rw [prepare_rfm_data, hkeys]
    simp [rfmDf, sampleLine, recent_date, lastPurchaseDay,
      List.filter_cons, hn, hn3, hm1, hm2, hm3]
    norm_num
  have h := rfm_recency_nonneg rfmDf
    { customer_id := "C1", frequency := 2, monetary := 20, recency := 0 } hmem
  exact ⟨hmem, h.2.1, h.2.2 (by decide)⟩

/-! ### Delivery Performance Aggregator (`prepare_delivery_data`, dashboard.py
lines 99-107) -/

/-- pandas `drop_duplicates(subset=[...], keep='first')`: keep a row only if
its key has not occurred earlier; `seen` accumulates the keys already kept. -/
def dropDupAux (key : OrderLine → String) : List String → List OrderLine → List OrderLine
  | _, [] => []
  | seen, x :: xs =>
    if key x ∈ seen then dropDupAux key seen xs
    else x :: dropDupAux key (key x :: seen) xs

/-- pandas `DataFrame.drop_duplicates` on one key column, keeping the first
occurrence of each key. -/
def drop_duplicates (key : OrderLine → String) (l : List OrderLine) : List OrderLine :=
  dropDupAux key [] l

theorem mem_of_mem_dropDupAux (key : OrderLine → String) (l : List OrderLine) :
    ∀ (seen : List String) (x : OrderLine), x ∈ dropDupAux key seen l → x ∈ l := by
  induction l with
  | nil => intro seen x hx; cases hx
  | cons y ys ih =>
    intro seen x hx
    rw [dropDupAux] at hx
    by_cases hy : key y ∈ seen
    · rw [if_pos hy] at hx
      exact List.mem_cons_of_mem y (ih seen x hx)
    · rw [if_neg hy] at hx
      rcases List.mem_cons.mp hx with rfl | h
      · exact List.mem_cons_self x ys
      · exact List.mem_cons_of_mem y (ih (key y :: seen) x h)

theorem mem_of_mem_drop_duplicates (key : OrderLine → String) (l : List OrderLine)
    (x : OrderLine) (hx : x ∈ drop_duplicates key l) : x ∈ l :=
  mem_of_mem_dropDupAux key l [] x hx

/-- One row of `orders_delivery_df`: the retained Order Line together with the
three day-count columns the aggregator appends to it. -/
structure DeliveryRow where
  line : OrderLine
  actual_delivery_time : Int
  estimated_delivery_time : Int
  delivery_difference : Int
deriving DecidableEq, Repr

/-- Embeds `prepare_delivery_data` (dashboard.py lines 99-107):
`dropna(subset=['order_delivered_customer_date'])`, then
`drop_duplicates(subset=['order_id'])` keeping the first row per order, then
the day counts `actual = delivered - purchase`, `estimated = estimate -
purchase` and `delivery_difference = estimated - actual`.  The `getD`
fallback is never hit: every retained row has a delivery timestamp. -/
def prepare_delivery_data (df : DataFrame) : List DeliveryRow :=
  (drop_duplicates (fun l => l.order_id)
      (df.filter (fun l => l.order_delivered_customer_date ≠ none))).map
    (fun l =>
      let actual := (l.order_delivered_customer_date.getD ⟨0, 0⟩).day -
        l.order_purchase_timestamp.day
      let est := l.order_estimated_delivery_date.day - l.order_purchase_timestamp.day
      { line := l
        actual_delivery_time := actual
        estimated_delivery_time := est
        delivery_difference := est - actual })

/-- C2: every retained delivery row satisfies `delivery_difference =
estimated_delivery_time - actual_delivery_time` exactly, and no row with a
null customer-delivery timestamp survives into the aggregate. -/
theorem delivery_difference_exact (df : DataFrame) (r : DeliveryRow)
    (hr : r ∈ prepare_delivery_data df) :
    r.delivery_difference = r.estimated_delivery_time - r.actual_delivery_time ∧
      r.line.order_delivered_customer_date ≠ none := by
  rcases List.mem_map.mp hr with ⟨l, hl, rfl⟩
  refine ⟨rfl, ?_⟩
  have hlf : l ∈ df.filter (fun l => l.order_delivered_customer_date ≠ none) :=
    mem_of_mem_drop_duplicates _ _ l hl
  exact of_decide_eq_true (List.mem_filter.mp hlf).2

/-- A table with order O1 delivered (two duplicate line rows) and order O2
undelivered: purchase day 0, delivery day 5, estimate day 7. -/
def delivDf : DataFrame :=
  [sampleLine,
   { sampleLine with price := 5 },
   { sampleLine with order_id := "O2", order_delivered_customer_date := none }]

/-- Witness for C2 at a concrete table: order O1 yields one retained row with
`delivery_difference = 7 - 5 = 2`, the undelivered order O2 is dropped, and
the duplicate O1 line is deduplicated: exactly one row remains. -/
theorem delivery_difference_exact_witness :
    ({ line := sampleLine, actual_delivery_time := 5, estimated_delivery_time := 7
       delivery_difference := 2 } : DeliveryRow) ∈ prepare_delivery_data delivDf ∧
      (2 : Int) = 7 - 5 ∧
      sampleLine.order_delivered_customer_date ≠ none ∧
      (prepare_delivery_data delivDf).length = 1 := by
  have hmem : ({ line := sampleLine, actual_delivery_time := 5
                 estimated_delivery_time := 7, delivery_difference := 2 } :
      DeliveryRow) ∈ prepare_delivery_data delivDf := by
    simp [prepare_delivery_data, delivDf, sampleLine, drop_duplicates, dropDupAux,
      List.filter_cons]
  have h := delivery_difference_exact delivDf
    { line := sampleLine, actual_delivery_time := 5, estimated_delivery_time := 7
      delivery_difference := 2 } hmem
  refine ⟨hmem, h.1, h.2, ?_⟩
  simp [prepare_delivery_data, delivDf, sampleLine, drop_duplicates, dropDupAux,
    List.filter_cons]

/-! ### Overview metrics (dashboard.py lines 116-125) -/

/-- pandas `Series.mean`: NaN (`none`) on an empty series, else sum/length. -/
def seriesMean (l : List Rat) : Option Rat :=
  if l = [] then none else some (l.sum / (l.length : Rat))

/-- Embeds `on_time_delivery_rate` (dashboard.py line 119):
`(delivery_data['delivery_difference'] >= 0).mean() * 100`, the mean of the
boolean indicator series scaled to a percentage. -/
def on_time_delivery_rate (df : DataFrame) : Option Rat :=
  (seriesMean ((prepare_delivery_data df).map
    (fun r => if 0 ≤ r.delivery_difference then (1 : Rat) else 0))).map
    (fun m => m * 100)

theorem sum_indicator_eq_count_filter (l : List DeliveryRow) :
    (l.map (fun r => if 0 ≤ r.delivery_difference then (1 : Rat) else 0)).sum =
      ((l.filter (fun r => 0 ≤ r.delivery_difference)).length : Rat) := by
  induction l with
  | nil => simp
  | cons x xs ih =>
    by_cases h : 0 ≤ x.delivery_difference
    · simp [List.filter_cons, h, ih]
      ring
    · simp [List.filter_cons, h, ih]

/-- C3 (amended): whenever at least one delivery row is retained, the on-time
rate equals 100 times the count of retained rows with non-negative difference
divided by the count of all retained rows, and every value it takes lies in
[0, 100].  (With zero retained rows the rate is the float NaN, modelled
`none`; see the counterexample.) -/
theorem on_time_rate_formula_and_bounds (df : DataFrame)
    (h : prepare_delivery_data df ≠ []) :
    on_time_delivery_rate df =
      some ((((prepare_delivery_data df).filter
          (fun r => 0 ≤ r.delivery_difference)).length : Rat) /
        ((prepare_delivery_data df).length : Rat) * 100) ∧
      ∀ q, on_time_delivery_rate df = some q → 0 ≤ q ∧ q ≤ 100 := by
  have hmapne : (prepare_delivery_data df).map
      (fun r => if 0 ≤ r.delivery_difference then (1 : Rat) else 0) ≠ [] := by
    simpa [List.map_eq_nil_iff] using h
  have heq : on_time_delivery_rate df =
      some ((((prepare_delivery_data df).filter
          (fun r => 0 ≤ r.delivery_difference)).length : Rat) /
        ((prepare_delivery_data df).length : Rat) * 100) := by
    rw [on_time_delivery_rate, seriesMean, if_neg hmapne]
    rw [sum_indicator_eq_count_filter, List.length_map]
    rfl
  refine ⟨heq, ?_⟩
  intro q hq
  rw [heq] at hq
  have hq2 := Option.some_inj.mp hq
  have hlen : (0 : Rat) < ((prepare_delivery_data df).length : Rat) := by
    have h0 : 0 < (prepare_delivery_data df).length := List.length_pos.mpr h
    exact_mod_cast h0
  have hcnt : (((prepare_delivery_data df).filter
      (fun r => 0 ≤ r.delivery_difference)).length : Rat) ≤
      ((prepare_delivery_data df).length : Rat) := by
    exact_mod_cast List.length_filter_le _ _
  constructor
  · rw [← hq2]
    have hdiv : (0 : Rat) ≤ (((prepare_delivery_data df).filter
        (fun r => 0 ≤ r.delivery_difference)).length : Rat) /
        ((prepare_delivery_data df).length : Rat) :=
      div_nonneg (Nat.cast_nonneg _) (le_of_lt hlen)
    nlinarith
  · rw [← hq2]
    have hdiv : (((prepare_delivery_data df).filter
        (fun r => 0 ≤ r.delivery_difference)).length : Rat) /
        ((prepare_delivery_data df).length : Rat) ≤ 1 :=
      (div_le_one hlen).mpr hcnt
    nlinarith

/-- A table whose single order is undelivered: the delivery aggregator
retains no rows. -/
def noDeliveryDf : DataFrame :=
  [{ sampleLine with order_delivered_customer_date := none }]

/-- Counterexample to C3 as stated: on a dataset with no retained delivery
rows, the on-time rate is the float NaN (`none`), so it neither equals the
claimed ratio nor lies in [0, 100]. -/
theorem on_time_rate_undefined_cex :
    ¬ ∃ q, on_time_delivery_rate noDeliveryDf = some q ∧ 0 ≤ q ∧ q ≤ 100 := by
  have hnone : on_time_delivery_rate noDeliveryDf = none := by
    simp [on_time_delivery_rate, prepare_delivery_data, noDeliveryDf, sampleLine,
      drop_duplicates, dropDupAux, List.filter_cons, seriesMean]
  rintro ⟨q, hq, -⟩
  rw [hnone] at hq
  exact Option.noConfusion hq

/-- Witness for the amended C3 at a concrete table: one retained row,
delivered early, rate 100%. -/
theorem on_time_rate_formula_and_bounds_witness :
    prepare_delivery_data delivDf ≠ [] ∧
      on_time_delivery_rate delivDf = some 100 ∧
      (0 : Rat) ≤ 100 ∧ (100 : Rat) ≤ 100 := by
  have hdel : prepare_delivery_data delivDf =
      [{ line := sampleLine, actual_delivery_time := 5, estimated_delivery_time := 7
         delivery_difference := 2 }] := by
    simp [prepare_delivery_data, delivDf, sampleLine, drop_duplicates, dropDupAux,
      List.filter_cons]
  have hne : prepare_delivery_data delivDf ≠ [] := by
    rw [hdel]; exact List.cons_ne_nil _ _
  have h := on_time_rate_formula_and_bounds delivDf hne
  have heval : on_time_delivery_rate delivDf = some 100 := by
    rw [h.1, hdel]
    norm_num [List.filter_cons]
  exact ⟨hne, heval, (h.2 100 heval).1, (h.2 100 heval).2⟩

/-- Elementwise float-series division (as in line 250): a finite rational
value unless the denominator is zero, in which case the float result is
non-finite (NaN for a 0/0 entry), modelled `none`. -/
def floatDiv (num den : Rat) : Option Rat :=
  if den = 0 then none else some (num / den)

/-- Embeds `total_orders = all_df['order_id'].nunique()` (line 116). -/
def total_orders (df : DataFrame) : Nat := nunique (df.map (fun l => l.order_id))

/-- Embeds `total_revenue = all_df['price'].sum()` (line 117). -/
def total_revenue (df : DataFrame) : Rat := (df.map (fun l => l.price)).sum

/-- Embeds `avg_order_value = total_revenue / total_orders` (line 118).  On a
nonempty table the division is a numpy float over a positive int and yields a
finite value.  `total_orders` is zero only for the empty table (order ids are
non-null), and there `read_csv` leaves the columns object-dtype, so
`sum()` and `nunique()` are both the Python integer 0 and `0 / 0` on plain
ints raises `ZeroDivisionError`, aborting the script; the raise is modelled
as `Except.error`. -/
def avg_order_value (df : DataFrame) : Except String Rat :=
  if total_orders df = 0 then .error "ZeroDivisionError: division by zero"
  else .ok (total_revenue df / ((total_orders df : Nat) : Rat))

/-- Embeds the per-month column `filtered_monthly_data['avg_order_value'] =
revenue / order_count` (line 250), elementwise float-series division: a
zero-order month is an empty bucket, so its entry is 0/0 = NaN. -/
def monthly_avg_order_value (r : MonthlyRow) : Option Rat :=
  floatDiv r.revenue ((r.order_count : Nat) : Rat)

/-- Counterexample to C6 as stated: the empty table (reachable, since a
header-only CSV loads successfully) is the only state with zero distinct
orders, and there line 118 divides Python int 0 by int 0 and raises
`ZeroDivisionError` — the program crashes instead of reporting a null
average order value. -/
theorem avg_order_value_crash_cex :
    total_orders ([] : DataFrame) = 0 ∧
      avg_order_value [] = Except.error "ZeroDivisionError: division by zero" :=
  ⟨rfl, rfl⟩

/-- C6 (amended): a month bucket with zero orders gets a null (NaN) per-month
average and rendering continues; but when the overall distinct-order count is
zero, line 118's division raises `ZeroDivisionError` instead of producing a
null metric — no rational value is ever returned there. -/
theorem zero_denominator_monthly_null_overall_crash (df : DataFrame) :
    (total_orders df = 0 → ∀ q : Rat, avg_order_value df ≠ Except.ok q) ∧
      ∀ r ∈ prepare_monthly_data df, r.order_count = 0 →
        monthly_avg_order_value r = none := by
  constructor
  · intro h q
    simp [avg_order_value, h]
  · intro r _ h
    simp [monthly_avg_order_value, floatDiv, h]

/-- A table with purchases in months 0 and 2 but none in month 1: the month-1
bucket exists with order count 0. -/
def gapDf : DataFrame :=
  [sampleLine,
   { sampleLine with order_id := "O2"
                     order_purchase_timestamp := { month := 2, day := 60 } }]

/-- Witness for the amended C6: the empty table has zero distinct orders and
its overall average is never a rational value (the division raises), while
the empty month-1 bucket of `gapDf` has a null per-month average. -/
theorem zero_denominator_monthly_null_overall_crash_witness :
    total_orders [] = 0 ∧ avg_order_value [] ≠ Except.ok 0 ∧
      ({ order_date := 1, order_count := 0, revenue := 0 } : MonthlyRow) ∈
        prepare_monthly_data gapDf ∧
      monthly_avg_order_value { order_date := 1, order_count := 0, revenue := 0 } =
        none := by
  have hmem : ({ order_date := 1, order_count := 0, revenue := 0 } : MonthlyRow) ∈
      prepare_monthly_data gapDf := by
    simp [prepare_monthly_data, monthRange, gapDf, sampleLine, List.range,
      List.range.loop, List.filter_cons, nunique]
  exact ⟨by decide,
    (zero_denominator_monthly_null_overall_crash []).1 (by decide) 0,
    hmem,
    (zero_denominator_monthly_null_overall_crash gapDf).2 _ hmem rfl⟩

/-! ### Data loading (`load_data`, dashboard.py lines 19-29) -/

/-- The state of the input `main_data.csv` as `pd.read_csv` distinguishes it:
absent or unreadable (raises `FileNotFoundError`/`OSError`), a zero-byte file
with no header row (raises `EmptyDataError`), or a header row plus the given
data rows (parses successfully, even with zero data rows). -/
inductive CsvFile
  | missing
  | headerless
  | table (rows : List OrderLine)
deriving DecidableEq, Repr

/-- Embeds `load_data` (dashboard.py lines 19-29): `pd.read_csv('main_data.csv')`
followed by datetime parsing of the timestamp columns (the parsed form is
already reflected in `OrderLine`).  The function installs no error handling
of its own, so read errors propagate and abort the script run before any
dashboard element is rendered. -/
def load_data : CsvFile → Except String DataFrame
  | .missing => .error "FileNotFoundError: main_data.csv"
  | .headerless => .error "EmptyDataError: no columns to parse from file"
  | .table rows => .ok rows

/-- Counterexample to C7 as stated: a readable file with a header but zero
data rows loads successfully as an empty table instead of failing. -/
theorem load_zero_rows_succeeds_cex :
    ¬ ∃ e, load_data (CsvFile.table []) = Except.error e := by
  rintro ⟨e, h⟩
  exact Except.noConfusion h

/-- C7 (amended): a missing/unreadable input or a headerless (zero-byte) file
fails the load with an error that aborts the run before anything renders; a
file with a header and zero data rows, however, loads successfully as an
empty table. -/
theorem load_data_failure_modes :
    (∃ e, load_data CsvFile.missing = Except.error e) ∧
      (∃ e, load_data CsvFile.headerless = Except.error e) ∧
      ∀ rows, load_data (CsvFile.table rows) = Except.ok rows :=
  ⟨⟨_, rfl⟩, ⟨_, rfl⟩, fun _ => rfl⟩

/-! ### Review scores (dashboard.py lines 128-134) -/

/-- Comparison used by `value_counts`: descending occurrence count. -/
def cntGe (a b : Nat × Nat) : Prop := b.2 ≤ a.2

instance : DecidableRel cntGe := fun a b => inferInstanceAs (Decidable (b.2 ≤ a.2))

/-- pandas `Series.value_counts`: the distinct values with their occurrence
counts, sorted by count descending. -/
def value_counts (l : List Nat) : List (Nat × Nat) :=
  List.insertionSort cntGe
    (l.dedup.map (fun s => (s, (l.filter (fun x => x = s)).length)))

/-- Embeds the review-distribution block (dashboard.py lines 128-134): when
the `review_score` column exists, `value_counts` of its non-null values;
otherwise the zero-filled placeholder over scores 1-5. -/
def review_distribution (hasReviewCol : Bool) (df : DataFrame) : List (Nat × Nat) :=
  if hasReviewCol then value_counts (df.filterMap (fun l => l.review_score))
  else [(1, 0), (2, 0), (3, 0), (4, 0), (5, 0)]

/-- Embeds `avg_review_score` (dashboard.py lines 131 and 134): the mean of
the non-null scores when the column exists (NaN when there are none),
otherwise 0. -/
def avg_review_score (hasReviewCol : Bool) (df : DataFrame) : Option Rat :=
  if hasReviewCol then
    seriesMean ((df.filterMap (fun l => l.review_score)).map (fun s => (s : Rat)))
  else some 0

/-- C8: with the `review_score` column absent, the distribution degrades to
the zero-filled placeholder over scores 1-5 and the average to 0; both
fallbacks are plain totals, so rendering continues instead of failing. -/
theorem missing_review_column_degrades (df : DataFrame) :
    review_distribution false df = [(1, 0), (2, 0), (3, 0), (4, 0), (5, 0)] ∧
      avg_review_score false df = some 0 :=
  ⟨rfl, rfl⟩

/-! ### Determinism of the pipeline -/

/-- C9: loading the same file twice yields the same table, and the four
aggregators are pure functions of that table: two runs over identical
snapshots produce identical derived tables (no hidden state or randomness in
the embedding). -/
theorem aggregators_deterministic (f : CsvFile) (dfa dfb : DataFrame)
    (ha : load_data f = Except.ok dfa) (hb : load_data f = Except.ok dfb) :
    dfa = dfb ∧
      prepare_monthly_data dfa = prepare_monthly_data dfb ∧
      prepare_category_data dfa = prepare_category_data dfb ∧
      prepare_rfm_data dfa = prepare_rfm_data dfb ∧
      prepare_delivery_data dfa = prepare_delivery_data dfb := by
  rw [ha] at hb
  have h : dfa = dfb := by
    cases hb
    rfl
  exact ⟨h, by rw [h], by rw [h], by rw [h], by rw [h]⟩

/-- Witness for C9: two loads of the same concrete file agree, and so do the
four aggregators on the resulting snapshots. -/
theorem aggregators_deterministic_witness :
    load_data (CsvFile.table multiLineDf) = Except.ok multiLineDf ∧
      multiLineDf = multiLineDf ∧
      prepare_monthly_data multiLineDf = prepare_monthly_data multiLineDf ∧
      prepare_category_data multiLineDf = prepare_category_data multiLineDf ∧
      prepare_rfm_data multiLineDf = prepare_rfm_data multiLineDf ∧
      prepare_delivery_data multiLineDf = prepare_delivery_data multiLineDf := by
  have h := aggregators_deterministic (CsvFile.table multiLineDf)
    multiLineDf multiLineDf rfl rfl
  exact ⟨rfl, h.1, h.2.1, h.2.2.1, h.2.2.2.1, h.2.2.2.2⟩

/-! ### Payment methods (dashboard.py lines 122-125) -/

/-- Embeds `payment_methods` (dashboard.py lines 122-125): group Order Lines
by `payment_type`; per type report the distinct `order_id` count and the
summed `payment_value` column (not the `price` column the revenue metrics
use). -/
def payment_methods (df : DataFrame) : List (String × Nat × Rat) :=
  (groupKeys (df.map (fun l => l.payment_type))).map (fun pt =>
    let rows := df.filter (fun l => l.payment_type = pt)
    (pt, nunique (rows.map (fun l => l.order_id)),
      (rows.map (fun l => l.payment_value)).sum))

/-- C10: every payment-method row reports the distinct order count and the
sum of `payment_value` over the Order Lines with that payment type, and every
payment type present in the table gets a row. -/
theorem payment_methods_spec (df : DataFrame) :
    (∀ p ∈ payment_methods df,
      p.2.1 = nunique ((df.filter (fun l => l.payment_type = p.1)).map
          (fun l => l.order_id)) ∧
        p.2.2 = ((df.filter (fun l => l.payment_type = p.1)).map
          (fun l => l.payment_value)).sum) ∧
      ∀ l ∈ df, ∃ p ∈ payment_methods df, p.1 = l.payment_type := by
  constructor
  · intro p hp
    rcases List.mem_map.mp hp with ⟨pt, _, rfl⟩
    exact ⟨rfl, rfl⟩
  · intro l hl
    have h1 : l.payment_type ∈ (df.map (fun x => x.payment_type)).dedup :=
      List.mem_dedup.mpr (List.mem_map.mpr ⟨l, hl, rfl⟩)
    have h2 : l.payment_type ∈ groupKeys (df.map (fun x => x.payment_type)) :=
      (List.mem_insertionSort _).mpr h1
    exact ⟨_, List.mem_map.mpr ⟨l.payment_type, h2, rfl⟩, rfl⟩

/-- A table with two payment types: order O1 paid by credit card (price 10,
payment value 11) and order O2 by boleto (price 20, payment value 99). -/
def payDf : DataFrame :=
  [sampleLine,
   { sampleLine with order_id := "O2", payment_type := "boleto", price := 20
                     payment_value := 99 }]

/-- Witness for C10 at a concrete table: the credit-card row reports 1
distinct order and a summed `payment_value` of 11, which differs from the
summed `price` (10) of the same rows. -/
theorem payment_methods_spec_witness :
    (("credit_card", 1, (11 : Rat)) ∈ payment_methods payDf ∧
        (1 = nunique ((payDf.filter (fun l => l.payment_type = "credit_card")).map
            (fun l => l.order_id)) ∧
          (11 : Rat) = ((payDf.filter
              (fun l => l.payment_type = "credit_card")).map
            (fun l => l.payment_value)).sum)) ∧
      ((payDf.filter (fun l => l.payment_type = "credit_card")).map
        (fun l => l.price)).sum = 10 ∧ (11 : Rat) ≠ 10 := by
  have hkeys : groupKeys (payDf.map (fun l => l.payment_type)) =
      ["boleto", "credit_card"] := by
    simp [groupKeys, payDf, sampleLine, List.insertionSort, List.orderedInsert,
      List.dedup_cons_of_mem, List.dedup_cons_of_not_mem]
    decide
  have hmem : ("credit_card", 1, (11 : Rat)) ∈ payment_methods payDf := by
    rw [payment_methods, hkeys]
    simp [payDf, sampleLine, List.filter_cons, nunique]
  refine ⟨⟨hmem, (payment_methods_spec payDf).1 _ hmem⟩, ?_, by norm_num⟩
  simp [payDf, sampleLine, List.filter_cons]
